import Mathlib

/-!
# A shallow embedding of `apache_beam/runners/common.py`

This file models the per-element invocation, splitting and output-dispatch
engine of the Beam Python SDK worker (`DoFnInvoker`, `SimpleInvoker`,
`PerWindowInvoker`, `DoFnRunner._reraise_augmented`,
`_OutputHandler.start_bundle_outputs`) and proves properties of the model.

Python values that flow through the engine are modelled by the inductive
`Val`; Python `None` is `Val.pynone`.  Exceptions are modelled with
`Except PyError`.  Mutable attributes of `PerWindowInvoker` are collected in
`InvokerState`, threaded explicitly.  Python truthiness tests
(`if window_index:`, `if not self.step_name:`, ...) are translated
literally, with a comment at each site.
-/

namespace BeamCommon

/-- A window.  `GlobalWindow()` is its own constructor; other windows are
identified by a number (their identity is opaque to this engine). -/
inductive Window where
  | global : Window
  | id : Nat → Window
deriving DecidableEq, Repr

/-- A Python value as seen by this engine: integers, 2-tuples, `None`,
the `RestrictionTrackerView` and threadsafe-estimator objects handed to the
user function, windowed-value objects, and window objects. -/
inductive Val where
  | int : Int → Val
  | pair : Val → Val → Val
  | pynone : Val
  | trackerView : Val
  | estimatorRef : Val
  | win : Window → Val
  | winVal : Val → Int → List Window → Nat → Val
deriving DecidableEq, Repr

/-- `WindowedValue`: a value, a timestamp, an ordered list of windows and
pane metadata (pane info is opaque, modelled by a `Nat`). -/
structure WindowedValue where
  value : Val
  timestamp : Int
  windows : List Window
  paneInfo : Nat
deriving DecidableEq, Repr

/-- The default pane info a freshly constructed `WindowedValue(value,
timestamp, windows)` receives (`PANE_INFO_UNKNOWN`). -/
def paneUnknown : Nat := 0

/-- `windowed_value.with_value(v)`: same timestamp/windows/pane, new value. -/
def WindowedValue.withValue (wv : WindowedValue) (v : Val) : WindowedValue :=
  { wv with value := v }

/-- `SplitResultPrimary` from `sdf_utils`. -/
structure SplitResultPrimary where
  primaryValue : WindowedValue
deriving DecidableEq, Repr

/-- `SplitResultResidual` from `sdf_utils`. -/
structure SplitResultResidual where
  residualValue : WindowedValue
  currentWatermark : Option Int
  deferredTimestamp : Option Int
deriving DecidableEq, Repr

/-- The exceptions the modelled code can raise. -/
inductive PyError where
  | sizeError (size : Int)          -- ValueError('Expected size >= 0 but received %s.')
  | keyShapeError (v : Val)         -- ValueError('Input value to a stateful DoFn or KeyParam must be a KV tuple ...')
  | missingSideInput (name : String)  -- ValueError('Value for sideinput %s not provided')
  | missingRestrictionTrackerParam  -- ValueError('DoFn is splittable but DoFn does not have a RestrictionTrackerParam defined')
  | startBundleOutputsError         -- RuntimeError('Start Bundle should not output any elements but got %s')
  | checkDoneError                  -- raised by tracker.check_done()
  | assertionError                  -- a failing `assert`
  | unpackError                     -- `window, = windows` with the wrong arity
  | nameError                       -- reference to a name that was never bound
  | attributeError                  -- attribute access on None
  | typeErrorNoneComparison         -- arithmetic/comparison between int and None
  | zeroDivisionError
  | indexError
deriving DecidableEq, Repr

/-! ## Python slice helpers

`lst[:k]`, `lst[a:]` and `lst[a:b]` with Python's negative-index and
clamping semantics. -/

/-- Clamp a Python slice bound into `[0, n]`, resolving negative indices
from the end of the list. -/
def pyIdx (n : Nat) (i : Int) : Nat :=
  let j : Int := if i < 0 then i + n else i
  if j < 0 then 0 else min j.toNat n

/-- `lst[a:b]`. -/
def pySlice {α : Type} (l : List α) (a b : Int) : List α :=
  let lo := pyIdx l.length a
  let hi := pyIdx l.length b
  (l.drop lo).take (hi - lo)

/-- `lst[:b]`. -/
def pySliceTo {α : Type} (l : List α) (b : Int) : List α :=
  pySlice l 0 b

/-- `lst[a:]`. -/
def pySliceFrom {α : Type} (l : List α) (a : Int) : List α :=
  l.drop (pyIdx l.length a)

/-- Python 3 `round` on an exact rational: round half to even, as used by
`int(round(...))` in `PerWindowInvoker._try_split`. -/
def pyRound (q : Rat) : Int :=
  let f := q.floor
  let frac := q - (f : Rat)
  if frac < 1/2 then f
  else if frac > 1/2 then f + 1
  else if f % 2 = 0 then f else f + 1

/-! ## Special parameters and the argument template -/

/-- The recognized special-parameter kinds that can appear as a default value
of a `process` parameter (`core.DoFn.*Param`), plus `constant` for a plain
(non-special) Python default value. -/
inductive Param where
  | elementP | keyP | windowP | windowedValueP | timestampP | paneInfoP
  | sideInputP
  | stateP (spec : Nat)
  | timerP (spec : Nat)
  | bundleFinalizerP
  | bundleContextP (cid : Nat)
  | setupContextP (cid : Nat)
  | constant (v : Val)
deriving DecidableEq, Repr

/-- An entry of the argument template: a concrete value, the
`ArgumentPlaceholder` sentinel used for deferred side inputs supplied
positionally, or an `ArgPlaceholder` wrapping a special-parameter kind. -/
inductive Arg where
  | value : Val → Arg
  | sideInputSlot : Arg
  | special : Param → Arg
deriving DecidableEq, Repr

/-- Keyword arguments: an association list preserving insertion order. -/
abbrev Kwargs : Type := List (String × Val)

/-- `dict[k] = v`: overwrite in place, or append if the key is new. -/
def kwargsSet (kw : Kwargs) (k : String) (v : Val) : Kwargs :=
  if (kw.filter (fun p => p.1 = k)).isEmpty
  then kw ++ [(k, v)]
  else kw.map (fun p => if p.1 = k then (k, v) else p)

/-- `base.update(add)`. -/
def kwargsUpdate (base add : Kwargs) : Kwargs :=
  add.foldl (fun acc kv => kwargsSet acc kv.1 kv.2) base

/-- The walk over `zip(arg_names[-len(defaults):], default_arg_values)` in
`_get_arg_placeholders`: special kinds become `ArgPlaceholder`s; a
side-input marker consumes the next remaining positional value, or demands
a keyword value; a plain default consumes the next remaining positional
value if there is one. -/
def walkDefaults (kwargs : Kwargs) :
    List (String × Param) → List Arg → List Arg →
    Except PyError (List Arg × List Arg)
  | [], acc, remaining => .ok (acc, remaining)
  | (a, d) :: rest, acc, remaining =>
    match d with
    | .sideInputP =>
      match remaining with
      | v :: vs => walkDefaults kwargs rest (acc ++ [v]) vs
      | [] =>
        -- if no more args are present the value must be passed via kwarg
        if (kwargs.filter (fun p => p.1 = a)).isEmpty
        then .error (.missingSideInput a)
        else walkDefaults kwargs rest acc []
    | .constant _ =>
      -- the final `else` branch: a plain default consumes the next
      -- remaining positional value when available
      match remaining with
      | v :: vs => walkDefaults kwargs rest (acc ++ [v]) vs
      | [] => walkDefaults kwargs rest acc []
    | p =>
      walkDefaults kwargs rest (acc ++ [Arg.special p]) remaining

/-- `_get_arg_placeholders(method, input_args, input_kwargs)`: returns the
placeholder positions, the argument template, and the keyword arguments. -/
def getArgPlaceholders (argNames : List String) (defaults : List Param)
    (inputArgs : List Arg) (inputKwargs : Kwargs) :
    Except PyError (List (Nat × Param) × List Arg × Kwargs) :=
  let noElementDefault := defaults.all (fun d => d ≠ Param.elementP)
  let argsToPick : Int :=
    if noElementDefault
    then (argNames.length : Int) - defaults.length - 1
    else (argNames.length : Int) - defaults.length
  let argsWithPh0 : List Arg :=
    if noElementDefault
    then Arg.special Param.elementP :: pySliceTo inputArgs argsToPick
    else pySliceTo inputArgs argsToPick
  let remaining0 := pySliceFrom inputArgs argsToPick
  let lastNames := argNames.drop (argNames.length - defaults.length)
  match walkDefaults inputKwargs (lastNames.zip defaults) argsWithPh0 remaining0 with
  | .error e => .error e
  | .ok (acc, leftover) =>
    let argsFinal := acc ++ leftover
    let placeholders := argsFinal.enum.filterMap
      (fun ia => match ia.2 with
        | Arg.special p => some (ia.1, p)
        | _ => none)
    .ok (placeholders, argsFinal, inputKwargs)

/-! ## Collaborator models -/

/-- The argument `restriction_size` is called with: the element value in
`_invoke_process_per_window` and after a tracker split, but the whole
windowed value in `compute_whole_window_split` (the source passes
`windowed_value` there, not `windowed_value.value`). -/
inductive RSArg where
  | value : Val → RSArg
  | windowedValue : WindowedValue → RSArg

/-- The restriction provider's contract used by this engine. -/
structure RestrictionProviderM where
  restrictionSize : RSArg → Val → Int

/-- A restriction tracker's observable behavior for one window of
processing: whether `check_done` passes, the `deferred_status`, the answer
to `try_split(fraction)`, and `current_progress` (completed, remaining). -/
structure TrackerModel where
  checkDoneOk : Bool
  deferredStatus : Option (Val × Int)
  trySplitAt : Rat → Option (Val × Val)
  currentProgress : Option (Rat × Rat)

/-- A watermark estimator: `current_watermark()` and
`get_estimator_state()`. -/
structure EstimatorModel where
  currentWatermark : Option Int
  estimatorState : Val

/-- A side-input map: globally-windowed flag and per-window lookup. -/
structure SideInputM where
  isGloballyWindowed : Bool
  get : Window → Val

/-- The part of `DoFnSignature` this engine consults, together with the
user-function behaviors it invokes (the user `process` function, the
restriction provider's `initial_restriction`/`create_tracker`, and the
watermark-estimator provider's `create_watermark_estimator`). -/
structure DoFnSignatureM where
  processArgNames : List String
  processDefaults : List Param
  processBatchArgNames : List String
  processBatchDefaults : List Param
  isStatefulDoFn : Bool
  isSplittableDoFn : Bool
  restrictionTrackerArgName : Option String
  watermarkArgName : Option String
  processFn : List Val → Kwargs → List Val
  initialRestriction : Val → Val
  createTracker : Option Val → TrackerModel
  createEstimator : Option Val → EstimatorModel
  provider : RestrictionProviderM

/-! ## PerWindowInvoker -/

/-- The immutable configuration a `PerWindowInvoker.__init__` computes,
plus the runtime collaborators (user state context, scoped-context
values). -/
structure PerWindowInvokerM where
  sig : DoFnSignatureM
  sideInputs : List SideInputM
  hasWindowedInputs : Bool
  userStateContext : Bool
  isSplittable : Bool
  isKeyParamRequired : Bool
  recalculateWindowArgs : Bool
  placeholdersForProcess : List (Nat × Param)
  argsForProcess : List Arg
  kwargsForProcess : Kwargs
  bundleFinalizerVal : Val
  getState : Nat → Val → Window → Val
  getTimer : Nat → Val → Window → Int → Nat → Val
  bundleContextValue : Nat → Val
  setupContextValue : Nat → Val

/-- `PerWindowInvoker.__init__`: derives `has_windowed_inputs` (non-global
side inputs, a `WindowParam` default of `process` or `process_batch`, or a
stateful DoFn), `is_key_param_required`, the caching policy, and the
argument template for `process` (and validates the one for
`process_batch`). -/
def mkPerWindowInvoker (sig : DoFnSignatureM) (sideInputs : List SideInputM)
    (inputArgs : List Arg) (inputKwargs : Kwargs)
    (userStateContext : Bool) (disableCachingExperiment : Bool)
    (bundleFinalizerVal : Val)
    (getState : Nat → Val → Window → Val)
    (getTimer : Nat → Val → Window → Int → Nat → Val)
    (bundleContextValue : Nat → Val) (setupContextValue : Nat → Val) :
    Except PyError PerWindowInvokerM :=
  let hasWindowedInputs :=
    (¬ sideInputs.all (fun si => si.isGloballyWindowed)) ∨
    sig.processDefaults.any (fun d => d = Param.windowP) ∨
    sig.processBatchDefaults.any (fun d => d = Param.windowP) ∨
    sig.isStatefulDoFn
  match getArgPlaceholders sig.processArgNames sig.processDefaults
      inputArgs inputKwargs with
  | .error e => .error e
  | .ok (phs, args, kwargs) =>
    -- the template for process_batch is computed as well and may raise
    match getArgPlaceholders sig.processBatchArgNames sig.processBatchDefaults
        inputArgs inputKwargs with
    | .error e => .error e
    | .ok _ =>
      .ok {
        sig := sig
        sideInputs := sideInputs
        hasWindowedInputs := decide hasWindowedInputs
        userStateContext := userStateContext
        isSplittable := sig.isSplittableDoFn
        isKeyParamRequired := sig.processDefaults.any (fun d => d = Param.keyP)
        recalculateWindowArgs := decide hasWindowedInputs || disableCachingExperiment
        placeholdersForProcess := phs
        argsForProcess := args
        kwargsForProcess := kwargs
        bundleFinalizerVal := bundleFinalizerVal
        getState := getState
        getTimer := getTimer
        bundleContextValue := bundleContextValue
        setupContextValue := setupContextValue }

/-- The mutable attributes of a `PerWindowInvoker`: the window-args cache
and the lock-protected splitting state. -/
structure InvokerState where
  hasCachedWindowArgs : Bool
  cachedArgs : List Arg
  cachedKwargs : Kwargs
  currentWindowedValue : Option WindowedValue
  restriction : Option Val
  watermarkEstimatorState : Option Val
  currentWindowIndex : Option Nat
  stopWindowIndex : Option Nat
  threadsafeRestrictionTracker : Option TrackerModel
  threadsafeWatermarkEstimator : Option EstimatorModel

/-- The state right after `__init__`: no cache, every splitting attribute
`None`. -/
def initialInvokerState : InvokerState :=
  { hasCachedWindowArgs := false
    cachedArgs := []
    cachedKwargs := []
    currentWindowedValue := none
    restriction := none
    watermarkEstimatorState := none
    currentWindowIndex := none
    stopWindowIndex := none
    threadsafeRestrictionTracker := none
    threadsafeWatermarkEstimator := none }

/-- The `finally` block of `invoke_process` (source lines 897-903): it
resets `current_windowed_value`, `restriction`,
`watermark_estimator_state`, `current_window_index`,
`threadsafe_restriction_tracker` and `threadsafe_watermark_estimator` —
and nothing else; in particular `stop_window_index` is left untouched. -/
def clearSplitState (st : InvokerState) : InvokerState :=
  { st with
    currentWindowedValue := none
    restriction := none
    watermarkEstimatorState := none
    currentWindowIndex := none
    threadsafeRestrictionTracker := none
    threadsafeWatermarkEstimator := none }

/-- Modelled from the spec: `apache_beam.internal.util.insert_values_in_args`
is not among the sources (only its call sites are).  Per the Argument
Binder contract (§4.2) and the Invoker description (§4.3), the
window-resolved side-input values are substituted, in order, for the
side-input placeholder slots of the precomputed argument template; a
template without side-input slots is returned unchanged.  Keyword
arguments are passed through. -/
def insertValuesInArgs (args : List Arg) (kwargs : Kwargs) (values : List Val) :
    List Arg × Kwargs :=
  let rec go : List Arg → List Val → List Arg
    | [], _ => []
    | Arg.sideInputSlot :: rest, v :: vs => Arg.value v :: go rest vs
    | a :: rest, vs => a :: go rest vs
  (go args values, kwargs)

/-- A state or timer fetch performed against the user-state context. -/
inductive LookupEvent where
  | state (spec : Nat) (key : Val) (w : Window)
  | timer (spec : Nat) (key : Val) (w : Window)
deriving DecidableEq, Repr

/-- Everything observable about one `invoke_process` run: the windowed
values `_invoke_process_per_window` was invoked with, the argument vectors
handed to the user `process` function, the calls made to the output
handler (input windowed value, produced results, whether a watermark
estimator was supplied), and the state/timer fetches. -/
structure RunTrace where
  perWindowCalls : List WindowedValue
  userCalls : List (List Val × Kwargs)
  handlerCalls : List (WindowedValue × List Val × Bool)
  lookups : List LookupEvent
deriving Repr

/-- The empty trace. -/
def RunTrace.empty : RunTrace := ⟨[], [], [], []⟩

/-- Trace concatenation (events of `a` happened before those of `b`). -/
def RunTrace.append (a b : RunTrace) : RunTrace :=
  ⟨a.perWindowCalls ++ b.perWindowCalls, a.userCalls ++ b.userCalls,
   a.handlerCalls ++ b.handlerCalls, a.lookups ++ b.lookups⟩

/-- The first half of `_invoke_process_per_window`: reuse the cached
window args if present, otherwise resolve the window (`window, =
windowed_value.windows` under an `assert len <= 1` when
`has_windowed_inputs`, else `GlobalWindow()`), resolve side inputs for it,
insert them into the template, and possibly populate the cache.  Returns
the args/kwargs, the window (`none` when the cached branch was taken and
the local `window` is never bound), and the updated state. -/
def buildProcessArgs (pw : PerWindowInvokerM) (st : InvokerState)
    (wv : WindowedValue) (additionalArgs : List Val) :
    Except PyError ((List Arg × Kwargs) × Option Window × InvokerState) :=
  if st.hasCachedWindowArgs then
    .ok ((st.cachedArgs, st.cachedKwargs), none, st)
  else
    let windowRes : Except PyError Window :=
      if pw.hasWindowedInputs then
        match wv.windows with
        | [w] => .ok w
        | [] => .error .unpackError         -- `window, = windows` with no window
        | _ => .error .assertionError       -- assert len(windows) <= 1
      else .ok Window.global
    match windowRes with
    | .error e => .error e
    | .ok w =>
      let sideVals := pw.sideInputs.map (fun si => si.get w) ++ additionalArgs
      let (argsFP, kwargsFP) :=
        insertValuesInArgs pw.argsForProcess pw.kwargsForProcess sideVals
      let st' :=
        if ¬ pw.recalculateWindowArgs then
          { st with hasCachedWindowArgs := true
                    cachedArgs := argsFP
                    cachedKwargs := kwargsFP }
        else st
      .ok ((argsFP, kwargsFP), some w, st')

/-- One assignment `args_for_process[i] = ...` of the placeholder-filling
loop.  Returns the updated template and the lookup performed, if any. -/
def fillOne (pw : PerWindowInvokerM) (wv : WindowedValue)
    (window : Option Window) (key : Option Val)
    (args : List Arg) (i : Nat) (p : Param) :
    Except PyError (List Arg × Option LookupEvent) :=
  match p with
  | .elementP => .ok (args.set i (Arg.value wv.value), none)
  | .keyP =>
    match key with
    | some k => .ok (args.set i (Arg.value k), none)
    | none => .error .nameError
  | .windowP =>
    match window with
    | some w => .ok (args.set i (Arg.value (Val.win w)), none)
    | none => .error .nameError
  | .windowedValueP =>
    .ok (args.set i (Arg.value
      (Val.winVal wv.value wv.timestamp wv.windows wv.paneInfo)), none)
  | .timestampP => .ok (args.set i (Arg.value (Val.int wv.timestamp)), none)
  | .paneInfoP => .ok (args.set i (Arg.value (Val.int wv.paneInfo)), none)
  | .stateP spec =>
    if ¬ pw.userStateContext then .error .assertionError
    else
      match key, window with
      | some k, some w =>
        .ok (args.set i (Arg.value (pw.getState spec k w)),
             some (LookupEvent.state spec k w))
      | _, _ => .error .nameError
  | .timerP spec =>
    if ¬ pw.userStateContext then .error .assertionError
    else
      match key, window with
      | some k, some w =>
        .ok (args.set i (Arg.value (pw.getTimer spec k w wv.timestamp wv.paneInfo)),
             some (LookupEvent.timer spec k w))
      | _, _ => .error .nameError
  | .bundleFinalizerP => .ok (args.set i (Arg.value pw.bundleFinalizerVal), none)
  | .bundleContextP cid => .ok (args.set i (Arg.value (pw.bundleContextValue cid)), none)
  | .setupContextP cid => .ok (args.set i (Arg.value (pw.setupContextValue cid)), none)
  -- the loop in the source has no case for these, so the slot is left as is
  | .sideInputP => .ok (args, none)
  | .constant _ => .ok (args, none)

/-- The placeholder-filling loop of `_invoke_process_per_window`; lookups
performed before a failing assignment have already happened. -/
def fillPlaceholders (pw : PerWindowInvokerM) (wv : WindowedValue)
    (window : Option Window) (key : Option Val) :
    List (Nat × Param) → List Arg →
    Except PyError (List Arg) × List LookupEvent
  | [], args => (.ok args, [])
  | (i, p) :: rest, args =>
    match fillOne pw wv window key args i p with
    | .error e => (.error e, [])
    | .ok (args', ev) =>
      let (res, evs) := fillPlaceholders pw wv window key rest args'
      (res, ev.toList ++ evs)

/-- Render the final argument vector (every placeholder position has been
overwritten; an untouched special slot is passed as the raw marker object,
modelled by `pynone`). -/
def argToVal : Arg → Val
  | Arg.value v => v
  | Arg.sideInputSlot => Val.pynone
  | Arg.special _ => Val.pynone

/-- The tail of `_invoke_process_per_window` for a splittable DoFn (source
lines 1060-1081): `check_done`, then if a deferred status exists compute
the deferred restriction's size (`>= 0` enforced), snapshot the watermark
and estimator state, and build the residual. -/
def processSdfTail (provider : RestrictionProviderM) (tracker : TrackerModel)
    (estimator : Option EstimatorModel) (wv : WindowedValue) :
    Except PyError (Option SplitResultResidual) :=
  if ¬ tracker.checkDoneOk then .error .checkDoneError
  else
    match tracker.deferredStatus with
    | none => .ok none
    | some (deferredRestriction, deferredTimestamp) =>
      let size := provider.restrictionSize (.value wv.value) deferredRestriction
      if size < 0 then .error (.sizeError size)
      else
        match estimator with
        | none => .error .attributeError  -- current_watermark() on a missing estimator
        | some est =>
          let residualValue :=
            Val.pair (Val.pair wv.value
                (Val.pair deferredRestriction est.estimatorState))
              (Val.int size)
          .ok (some
            { residualValue := wv.withValue residualValue
              currentWatermark := est.currentWatermark
              deferredTimestamp := some deferredTimestamp })

/-- `_invoke_process_per_window`: build the args, extract the key when the
DoFn is stateful or declares `KeyParam` (a non-pair value is a key-shape
error, raised before any state lookup), fill the placeholders, call the
user function, hand the results to the output handler, and for splittable
DoFns run the tracker tail. -/
def invokeProcessPerWindow (pw : PerWindowInvokerM) (st : InvokerState)
    (wv : WindowedValue) (additionalArgs : List Val) (additionalKwargs : Kwargs) :
    Except PyError (Option SplitResultResidual) × InvokerState × RunTrace :=
  let base : RunTrace := { RunTrace.empty with perWindowCalls := [wv] }
  match buildProcessArgs pw st wv additionalArgs with
  | .error e => (.error e, st, base)
  | .ok ((args0, kwargs0), window?, st1) =>
    let keyRes : Except PyError (Option Val) :=
      if pw.userStateContext ∨ pw.isKeyParamRequired then
        match wv.value with
        | .pair k _ => .ok (some k)
        | v => .error (.keyShapeError v)
      else .ok none
    match keyRes with
    | .error e => (.error e, st1, base)
    | .ok key? =>
      match fillPlaceholders pw wv window? key? pw.placeholdersForProcess args0 with
      | (.error e, lookups) => (.error e, st1, { base with lookups := lookups })
      | (.ok argsF, lookups) =>
        let kwargsF := kwargsUpdate kwargs0 additionalKwargs
        let argVals := argsF.map argToVal
        let results := pw.sig.processFn argVals kwargsF
        let tr : RunTrace :=
          { perWindowCalls := [wv]
            userCalls := [(argVals, kwargsF)]
            handlerCalls := [(wv, results, st1.threadsafeWatermarkEstimator.isSome)]
            lookups := lookups }
        let res : Except PyError (Option SplitResultResidual) :=
          if pw.isSplittable then
            match st1.threadsafeRestrictionTracker with
            | none => .error .assertionError  -- assert tracker is not None
            | some tracker =>
              processSdfTail pw.sig.provider tracker
                st1.threadsafeWatermarkEstimator wv
          else .ok none
        (res, st1, tr)

/-- Install the freshly built tracker/estimator pair and extend
`additional_kwargs` with the restriction-tracker view (mandatory; a DoFn
without a `RestrictionTrackerParam` is a validation error) and, when
declared, the threadsafe watermark estimator. -/
def installTrackablePair (sig : DoFnSignatureM) (st : InvokerState)
    (tracker : TrackerModel) (estimator : EstimatorModel)
    (additionalKwargs : Kwargs) :
    Except PyError (Bool × InvokerState × Kwargs) :=
  let st' := { st with
    threadsafeRestrictionTracker := some tracker
    threadsafeWatermarkEstimator := some estimator }
  match sig.restrictionTrackerArgName with
  | none => .error .missingRestrictionTrackerParam
  | some trackerName =>
    let kw1 := kwargsSet additionalKwargs trackerName Val.trackerView
    let kw2 :=
      match sig.watermarkArgName with
      | none => kw1
      | some wName => kwargsSet kw1 wName Val.estimatorRef
    .ok (true, st', kw2)

/-- `PerWindowInvoker._should_process_window_for_sdf` (source lines
943-978).  A fresh tracker and estimator are built; then, under the
splitting lock, the source runs `if window_index:` — a Python truthiness
test, which is False both for `None` and for index `0` — and inside that
branch records the index, runs the (consequently unreachable)
`if window_index == 0: self.stop_window_index = len(windows)` assignment,
and stops processing when the index has reached the stop index; finally
the pair is installed and the SDF kwargs are populated. -/
def shouldProcessWindowForSdf (sig : DoFnSignatureM) (st : InvokerState)
    (wv : WindowedValue) (additionalKwargs : Kwargs)
    (windowIndex : Option Nat) :
    Except PyError (Bool × InvokerState × Kwargs) :=
  let tracker := sig.createTracker st.restriction
  let estimator := sig.createEstimator st.watermarkEstimatorState
  -- `if window_index:` — truthiness: none and 0 are both falsy
  let indexTruthy := match windowIndex with
    | none => false
    | some wi => wi ≠ 0
  if indexTruthy then
    let wi := windowIndex.getD 0
    let st1 := { st with currentWindowIndex := some wi }
    let st2 :=
      if wi = 0 then { st1 with stopWindowIndex := some wv.windows.length }
      else st1
    if st2.stopWindowIndex = some wi then .ok (false, st2, additionalKwargs)
    else installTrackablePair sig st2 tracker estimator additionalKwargs
  else installTrackablePair sig st tracker estimator additionalKwargs

/-- A synthetic single-window copy: `WindowedValue(value, timestamp, (w,))`
(the pane info is not copied; the new value carries the default pane). -/
def syntheticCopy (wv : WindowedValue) (w : Window) : WindowedValue :=
  { value := wv.value, timestamp := wv.timestamp, windows := [w],
    paneInfo := paneUnknown }

/-- The per-window loop of the splittable branch of `invoke_process`:
`for i, w in enumerate(windows): if not should_process: break; ...`.
Returns the outcome, final state, final kwargs, collected residuals and
the trace. -/
def sdfWindowLoop (pw : PerWindowInvokerM) (wv : WindowedValue)
    (additionalArgs : List Val) :
    List (Nat × Window) → InvokerState → Kwargs →
    Except PyError Unit × InvokerState × Kwargs ×
      List SplitResultResidual × RunTrace
  | [], st, kw => (.ok (), st, kw, [], RunTrace.empty)
  | (i, w) :: rest, st, kw =>
    match shouldProcessWindowForSdf pw.sig st wv kw (some i) with
    | .error e => (.error e, st, kw, [], RunTrace.empty)
    | .ok (false, st1, kw1) => (.ok (), st1, kw1, [], RunTrace.empty)  -- break
    | .ok (true, st1, kw1) =>
      match invokeProcessPerWindow pw st1 (syntheticCopy wv w) additionalArgs kw1 with
      | (.error e, st2, tr) => (.error e, st2, kw1, [], tr)
      | (.ok residual?, st2, tr) =>
        match sdfWindowLoop pw wv additionalArgs rest st2 kw1 with
        | (res3, st3, kw3, rs, tr3) =>
          (res3, st3, kw3, residual?.toList ++ rs, tr.append tr3)

/-- The window-explosion loop of the non-splittable branch of
`invoke_process` (source lines 904-910). -/
def explodeLoop (pw : PerWindowInvokerM) (wv : WindowedValue)
    (additionalArgs : List Val) (additionalKwargs : Kwargs) :
    List Window → InvokerState →
    Except PyError Unit × InvokerState × RunTrace
  | [], st => (.ok (), st, RunTrace.empty)
  | w :: rest, st =>
    match invokeProcessPerWindow pw st (syntheticCopy wv w) additionalArgs
        additionalKwargs with
    | (.error e, st1, tr) => (.error e, st1, tr)
    | (.ok _, st1, tr) =>
      match explodeLoop pw wv additionalArgs additionalKwargs rest st1 with
      | (res2, st2, tr2) => (res2, st2, tr.append tr2)

/-- The body of the splittable branch of `invoke_process`: default the
restriction via `initial_restriction` when absent, publish the element
under the lock, then either iterate the windows (window explosion) or
process once. The `finally` clearing is applied by the caller. -/
def invokeProcessSplittableBody (pw : PerWindowInvokerM) (st : InvokerState)
    (wv : WindowedValue) (restrictionArg : Option Val)
    (watermarkEstimatorStateArg : Option Val)
    (additionalArgs : List Val) (additionalKwargs : Kwargs) :
    Except PyError Unit × InvokerState × List SplitResultResidual × RunTrace :=
  let restriction :=
    match restrictionArg with
    | some r => r
    | none => pw.sig.initialRestriction wv.value
  let st0 := { st with
    currentWindowedValue := some wv
    restriction := some restriction
    watermarkEstimatorState := watermarkEstimatorStateArg }
  if pw.hasWindowedInputs ∧ wv.windows.length > 1 then
    match sdfWindowLoop pw wv additionalArgs wv.windows.enum st0 additionalKwargs with
    | (res, st', _, rs, tr) => (res, st', rs, tr)
  else
    match shouldProcessWindowForSdf pw.sig st0 wv additionalKwargs none with
    | .error e => (.error e, st0, [], RunTrace.empty)
    | .ok (false, st1, _) => (.ok (), st1, [], RunTrace.empty)
    | .ok (true, st1, kw1) =>
      match invokeProcessPerWindow pw st1 wv additionalArgs kw1 with
      | (.error e, st2, tr) => (.error e, st2, [], tr)
      | (.ok residual?, st2, tr) => (.ok (), st2, residual?.toList, tr)

/-- `PerWindowInvoker.invoke_process` (source lines 844-914).  For a
splittable DoFn the splitting state is published, the windows are
processed, and the `finally` block clears the shared state on every exit
path; for a window-sensitive non-splittable DoFn with `len(windows) != 1`
the element is exploded into one call per window; otherwise the function
is invoked once on the element as is. -/
def PerWindowInvoker.invokeProcess (pw : PerWindowInvokerM) (st : InvokerState)
    (wv : WindowedValue) (restrictionArg : Option Val)
    (watermarkEstimatorStateArg : Option Val)
    (additionalArgs : List Val) (additionalKwargs : Kwargs) :
    Except PyError (List SplitResultResidual) × InvokerState × RunTrace :=
  if pw.isSplittable then
    let r := invokeProcessSplittableBody pw st wv restrictionArg
      watermarkEstimatorStateArg additionalArgs additionalKwargs
    (r.1.map (fun _ => r.2.2.1), clearSplitState r.2.1, r.2.2.2)
  else if pw.hasWindowedInputs ∧ wv.windows.length ≠ 1 then
    let r := explodeLoop pw wv additionalArgs additionalKwargs wv.windows st
    (r.1.map (fun _ => []), r.2.1, r.2.2)
  else
    let r := invokeProcessPerWindow pw st wv additionalArgs additionalKwargs
    (r.1.map (fun _ => []), r.2.1, r.2.2)

/-- `SimpleInvoker.invoke_process`: call the user function with exactly the
element value and hand the results to the output handler; no windowing, no
estimator, no residuals. -/
def SimpleInvoker.invokeProcess (sig : DoFnSignatureM) (wv : WindowedValue) :
    Except PyError (List SplitResultResidual) × RunTrace :=
  let results := sig.processFn [wv.value] []
  (.ok [],
   { perWindowCalls := []
     userCalls := [([wv.value], [])]
     handlerCalls := [(wv, results, false)]
     lookups := [] })

/-- The policy choice in `DoFnInvoker.create_invoker`: the direct policy
(`SimpleInvoker`) is used iff process invocation is enabled and there are
no side inputs, no input args/kwargs, no `process`/`process_batch`
defaults, and the DoFn is not stateful. -/
def createInvokerUsesSimple (sig : DoFnSignatureM) (sideInputs : List SideInputM)
    (inputArgs : List Arg) (inputKwargs : Kwargs)
    (processInvocation : Bool) : Bool :=
  !(processInvocation &&
    (!sideInputs.isEmpty || !inputArgs.isEmpty || !inputKwargs.isEmpty ||
     !sig.processDefaults.isEmpty || !sig.processBatchDefaults.isEmpty ||
     sig.isStatefulDoFn))

/-! ## Split coordinator -/

/-- `PerWindowInvoker._scale_progress`: scale one window's progress across
the whole remaining window range. -/
def scaleProgress (completed remaining : Rat)
    (windowIndex stopWindowIndex : Nat) : Rat × Rat :=
  let total := completed + remaining
  ((windowIndex : Rat) * total + completed,
   ((stopWindowIndex : Rat) - ((windowIndex : Rat) + 1)) * total + remaining)

/-- `compute_whole_window_split(to_index, from_index)` (source lines
1199-1223): size the original restriction (`>= 0` enforced), build the
shared value, and produce a primary over `windows[:to_index]` (when
`to_index > 0`) and a residual over `windows[from_index:stop_window_index]`
(when `from_index < stop_window_index`) with no watermark. -/
def computeWholeWindowSplit (provider : RestrictionProviderM)
    (wv : WindowedValue) (restriction wes : Val)
    (stopWindowIndex : Int) (toIndex fromIndex : Int) :
    Except PyError (Option SplitResultPrimary × Option SplitResultResidual) :=
  let restrictionSize := provider.restrictionSize (.windowedValue wv) restriction
  if restrictionSize < 0 then .error (.sizeError restrictionSize)
  else
    let value := Val.pair (Val.pair wv.value (Val.pair restriction wes))
      (Val.int restrictionSize)
    let primary : Option SplitResultPrimary :=
      if toIndex > 0 then
        some ⟨{ value := value, timestamp := wv.timestamp,
                windows := pySliceTo wv.windows toIndex,
                paneInfo := paneUnknown }⟩
      else none
    let residual : Option SplitResultResidual :=
      if fromIndex < stopWindowIndex then
        some ⟨{ value := value, timestamp := wv.timestamp,
                windows := pySlice wv.windows fromIndex stopWindowIndex,
                paneInfo := paneUnknown }, none, none⟩
      else none
    .ok (primary, residual)

/-- The lower half of `PerWindowInvoker._try_split` (source lines
1277-1334): snapshot the watermark and estimator state *before* asking the
tracker to split; on a successful tracker split validate the primary and
residual restriction sizes independently (`>= 0` each) and package the
split (plus, when window observing, the whole-window split of the adjacent
windows); when the tracker declines, fall back to the whole-window
boundary split if one was computed. `windowContext` is `(window_index,
stop_window_index)` when window observing. -/
def tryTrackerSplit (fraction : Rat) (wv : WindowedValue)
    (restriction wes : Val) (provider : RestrictionProviderM)
    (tracker : TrackerModel) (estimatorOpt : Option EstimatorModel)
    (windowContext : Option (Nat × Nat))
    (stopWindowIndexOrig : Option Nat) (newStopWindowIndex : Option Nat) :
    Except PyError
      (Option (List SplitResultPrimary × List SplitResultResidual × Option Nat)) :=
  match estimatorOpt with
  | none => .error .attributeError  -- current_watermark() before the split call
  | some estimator =>
    let currentWatermark := estimator.currentWatermark
    let currentEstimatorState := estimator.estimatorState
    match tracker.trySplitAt fraction with
    | some (primaryR, residualR) =>
      let primarySize := provider.restrictionSize (.value wv.value) primaryR
      if primarySize < 0 then .error (.sizeError primarySize)
      else
        let residualSize := provider.restrictionSize (.value wv.value) residualR
        if residualSize < 0 then .error (.sizeError residualSize)
        else
          let primarySplitValue :=
            Val.pair (Val.pair wv.value (Val.pair primaryR wes))
              (Val.int primarySize)
          let residualSplitValue :=
            Val.pair (Val.pair wv.value (Val.pair residualR currentEstimatorState))
              (Val.int residualSize)
          match windowContext with
          | none =>
            .ok (some
              ([⟨{ value := primarySplitValue, timestamp := wv.timestamp,
                   windows := wv.windows, paneInfo := paneUnknown }⟩],
               [⟨{ value := residualSplitValue, timestamp := wv.timestamp,
                   windows := wv.windows, paneInfo := paneUnknown },
                 currentWatermark, none⟩],
               newStopWindowIndex))
          | some (wi, stop) =>
            match wv.windows.get? wi with
            | none => .error .indexError  -- windowed_value.windows[window_index]
            | some w =>
              let prim : SplitResultPrimary :=
                ⟨{ value := primarySplitValue, timestamp := wv.timestamp,
                   windows := [w], paneInfo := paneUnknown }⟩
              let resid : SplitResultResidual :=
                ⟨{ value := residualSplitValue, timestamp := wv.timestamp,
                   windows := [w], paneInfo := paneUnknown },
                 currentWatermark, none⟩
              -- assert new_stop_window_index == window_index + 1
              if newStopWindowIndex ≠ some (wi + 1) then .error .assertionError
              else
                match computeWholeWindowSplit provider wv restriction wes
                    stop wi (wi + 1) with
                | .error e => .error e
                | .ok (wholePrimary?, wholeResidual?) =>
                  .ok (some
                    ([prim] ++ wholePrimary?.toList,
                     [resid] ++ wholeResidual?.toList,
                     newStopWindowIndex))
    | none =>
      -- `elif new_stop_window_index and new_stop_window_index != stop_window_index:`
      -- (truthiness: None and 0 are falsy)
      let newStopTruthy := match newStopWindowIndex with
        | some n => n ≠ 0
        | none => false
      if newStopTruthy = true ∧ newStopWindowIndex ≠ stopWindowIndexOrig then
        match windowContext with
        | some (_, stop) =>
          match computeWholeWindowSplit provider wv restriction wes stop
              ((newStopWindowIndex.getD 0 : Nat) : Int)
              ((newStopWindowIndex.getD 0 : Nat) : Int) with
          | .error e => .error e
          | .ok (some p, some r) => .ok (some ([p], [r], newStopWindowIndex))
          | .ok _ => .error .assertionError  -- assert primary / assert residual
        | none => .error .typeErrorNoneComparison  -- unreachable: slicing with a None stop
      else .ok none

/-- `PerWindowInvoker._try_split` (source lines 1153-1334).  When window
observing and not on the last window it decides whether the requested
fraction lies beyond the current window (whole-window boundary split, stop
index shrunk, rounding by `int(round(...))`) or within it (fraction
rescaled to the current window); then the tracker split is attempted. -/
def trySplitHelper (fraction : Rat) (windowIndex stopWindowIndex : Option Nat)
    (wv : WindowedValue) (restriction wes : Val)
    (provider : RestrictionProviderM) (tracker : TrackerModel)
    (estimatorOpt : Option EstimatorModel) :
    Except PyError
      (Option (List SplitResultPrimary × List SplitResultResidual × Option Nat)) :=
  match windowIndex with
  | none =>
    -- not window observing: the stop index is unchanged
    tryTrackerSplit fraction wv restriction wes provider tracker estimatorOpt
      none stopWindowIndex stopWindowIndex
  | some wi =>
    match stopWindowIndex with
    | none => .error .typeErrorNoneComparison  -- `stop_window_index - 1` on None
    | some stop =>
      if (wi : Int) ≠ (stop : Int) - 1 then
        -- current_progress(), defaulting to completed=0, remaining=1
        let progress := tracker.currentProgress.getD (0, 1)
        let completed := progress.1
        let remaining := progress.2
        let total := completed + remaining
        let scaled := scaleProgress completed remaining wi stop
        let fractionOfRemainder := scaled.2 * fraction
        if fractionOfRemainder ≥ remaining then
          if total = 0 then .error .zeroDivisionError
          else
            let newStop : Int :=
              min ((stop : Int) - 1)
                ((wi : Int) +
                  max 1 (pyRound ((completed + scaled.2 * fraction) / total)))
            match computeWholeWindowSplit provider wv restriction wes stop
                newStop newStop with
            | .error e => .error e
            | .ok (some p, some r) => .ok (some ([p], [r], some newStop.toNat))
            | .ok _ => .error .assertionError  -- assert primary / assert residual
        else
          if remaining = 0 then .error .zeroDivisionError
          else
            let fraction' := fractionOfRemainder / remaining
            tryTrackerSplit fraction' wv restriction wes provider tracker
              estimatorOpt (some (wi, stop)) stopWindowIndex (some (wi + 1))
      else
        tryTrackerSplit fraction wv restriction wes provider tracker
          estimatorOpt (some (wi, stop)) stopWindowIndex stopWindowIndex

/-- `PerWindowInvoker.try_split` (source lines 1336-1362): no-op for a
non-splittable DoFn or when no tracker is installed; otherwise run the
static helper on a consistent snapshot of the lock-protected state, store
the returned stop index, and return the primaries/residuals pair.  The
source binds the helper's components to locals named `residuals,
primaries` — swapped names — but both the stored stop index and the
returned pair follow the helper's positional order. -/
def PerWindowInvoker.trySplit (pw : PerWindowInvokerM) (st : InvokerState)
    (fraction : Rat) :
    Except PyError (Option (List SplitResultPrimary × List SplitResultResidual)) ×
      InvokerState :=
  if ¬ pw.isSplittable then (.ok none, st)
  else
    match st.threadsafeRestrictionTracker with
    | none => (.ok none, st)  -- `if not self.threadsafe_restriction_tracker:`
    | some tracker =>
      match st.currentWindowedValue with
      | none => (.error .attributeError, st)
        -- unreachable: the lock installs the windowed value together with the
        -- tracker; the helper would raise on dereferencing a missing value
      | some wv =>
        match trySplitHelper fraction st.currentWindowIndex st.stopWindowIndex
            wv (st.restriction.getD Val.pynone)
            (st.watermarkEstimatorState.getD Val.pynone)
            pw.sig.provider tracker st.threadsafeWatermarkEstimator with
        | .error e => (.error e, st)
        | .ok none => (.ok none, st)
        | .ok (some (primaries, residuals, newStop)) =>
          (.ok (some (primaries, residuals)),
           { st with stopWindowIndex := newStop })

/-- `PerWindowInvoker.current_element_progress` (source lines 1375-1396),
including the `assert stop_window_index` the source states must hold
whenever `current_window_index` is set. -/
def currentElementProgress (pw : PerWindowInvokerM) (st : InvokerState) :
    Except PyError (Option (Rat × Rat)) :=
  if ¬ pw.isSplittable then .ok none
  else
    match st.threadsafeRestrictionTracker with
    | none => .ok none
    | some tracker =>
      match tracker.currentProgress with
      | none => .ok none  -- `if not current_window_index or not progress`
      | some progress =>
        -- `if not current_window_index ...` — truthiness: None and 0 are falsy
        let indexFalsy := match st.currentWindowIndex with
          | none => true
          | some i => i = 0
        if indexFalsy then .ok (some progress)
        else
          -- assert stop_window_index (fails on None and on 0)
          match st.stopWindowIndex with
          | none => .error .assertionError
          | some stop =>
            if stop = 0 then .error .assertionError
            else .ok (some (scaleProgress progress.1 progress.2
              (st.currentWindowIndex.getD 0) stop))

/-! ## Bundle lifecycle: exception annotation and start-bundle outputs -/

/-- A Python exception as seen by `DoFnRunner._reraise_augmented`: whether
it already carries the `_tagged_with_step` marker, its first argument (the
message), and whether an exception of the same type can be rebuilt with an
augmented message and tagged (when not, the source falls back to a
`RuntimeError` wrapping the rendered original). -/
structure PyExn where
  tagged : Bool
  msg : String
  reconstructible : Bool
deriving DecidableEq, Repr

/-- The annotation appended to the message: `" [while running '<step>']"`. -/
def stepAnnotation (stepName : String) : String :=
  " [while running '" ++ stepName ++ "']"

/-- `traceback.format_exception_only(...)[-1].strip()` — an opaque
rendering of the original exception, modelled as its message. -/
def formatExceptionOnly (e : PyExn) : String := e.msg

/-- `DoFnRunner._reraise_augmented` (source lines 1586-1609): an exception
already tagged with a step, or a runner without a step name (`if ... or
not self.step_name` — empty string falsy), is re-raised unchanged;
otherwise a same-type exception with the annotated message is raised,
tagged, falling back to a tagged `RuntimeError` when reconstruction
fails. -/
def reraiseAugmented (stepName : Option String) (e : PyExn) : PyExn :=
  let stepTruthy := match stepName with
    | none => false
    | some s => s ≠ ""
  if e.tagged = true ∨ stepTruthy = false then e
  else
    let step := stepName.getD ""
    if e.reconstructible then
      { tagged := true, msg := e.msg ++ stepAnnotation step,
        reconstructible := e.reconstructible }
    else
      { tagged := true, msg := formatExceptionOnly e ++ stepAnnotation step,
        reconstructible := false }

/-- `DoFnRunner.process`: delegate to the invoker; any raised exception is
routed through `_reraise_augmented` and re-raised — never swallowed, never
retried. -/
def DoFnRunner.process (stepName : Option String)
    (invokeResult : Except PyExn (List SplitResultResidual)) :
    Except PyExn (List SplitResultResidual) :=
  match invokeResult with
  | .ok rs => .ok rs
  | .error e => .error (reraiseAugmented stepName e)

/-- `_OutputHandler.start_bundle_outputs` (source lines 1816-1821): only a
`None` result returns (routing nothing); *any* other object — an empty
sequence included — raises the fatal shape error. -/
def startBundleOutputs (results : Option (List Val)) : Except PyError Unit :=
  match results with
  | none => .ok ()
  | some _ => .error .startBundleOutputsError

/-! ## Concrete instances used to exercise the model -/

/-- Projection of the key a state/timer fetch used. -/
def LookupEvent.key : LookupEvent → Val
  | .state _ k _ => k
  | .timer _ k _ => k

/-- Projection of the window a state/timer fetch used. -/
def LookupEvent.window : LookupEvent → Window
  | .state _ _ w => w
  | .timer _ _ w => w

/-- A tracker that finishes cleanly: nothing deferred, declines splits. -/
def trackerBasic : TrackerModel :=
  { checkDoneOk := true, deferredStatus := none,
    trySplitAt := fun _ => none, currentProgress := some (0, 1) }

/-- A tracker that accepts every split, yielding restrictions `1` / `2`. -/
def trackerSplitOk : TrackerModel :=
  { checkDoneOk := true, deferredStatus := none,
    trySplitAt := fun _ => some (Val.int 1, Val.int 2), currentProgress := none }

/-- A tracker whose element defers work: restriction `11`, timestamp `4`. -/
def trackerDeferred : TrackerModel :=
  { checkDoneOk := true, deferredStatus := some (Val.int 11, 4),
    trySplitAt := fun _ => none, currentProgress := none }

/-- A nondescript watermark estimator. -/
def estimatorBasic : EstimatorModel :=
  { currentWatermark := some 0, estimatorState := Val.int 0 }

/-- An estimator with distinguishable snapshot values. -/
def estimatorSplit : EstimatorModel :=
  { currentWatermark := some 7, estimatorState := Val.int 9 }

/-- A provider that reports every restriction as size `1`. -/
def providerOne : RestrictionProviderM := ⟨fun _ _ => 1⟩

/-- A provider that reports every restriction as size `-3`. -/
def providerNeg : RestrictionProviderM := ⟨fun _ _ => -3⟩

/-- A provider that rejects only the primary restriction `1` produced by
`trackerSplitOk` (size `-5`), sizing everything else `2`. -/
def providerPrimNeg : RestrictionProviderM :=
  ⟨fun _ r => if r = Val.int 1 then -5 else 2⟩

/-- A provider that rejects only the residual restriction `2` produced by
`trackerSplitOk` (size `-7`), sizing everything else `3`. -/
def providerResidNeg : RestrictionProviderM :=
  ⟨fun _ r => if r = Val.int 2 then -7 else 3⟩

/-- A window-observing splittable DoFn signature: `process(self, element,
window=DoFn.WindowParam, restriction_tracker=DoFn.RestrictionParam(...))`. -/
def sigSdf : DoFnSignatureM :=
  { processArgNames := ["element", "window"]
    processDefaults := [Param.windowP]
    processBatchArgNames := []
    processBatchDefaults := []
    isStatefulDoFn := false
    isSplittableDoFn := true
    restrictionTrackerArgName := some "restriction_tracker"
    watermarkArgName := none
    processFn := fun _ _ => []
    initialRestriction := fun _ => Val.int 0
    createTracker := fun _ => trackerBasic
    createEstimator := fun _ => estimatorBasic
    provider := providerOne }

/-- The `PerWindowInvoker` built from `sigSdf` (checked against
`mkPerWindowInvoker` below). -/
def pwSdf : PerWindowInvokerM :=
  { sig := sigSdf
    sideInputs := []
    hasWindowedInputs := true
    userStateContext := false
    isSplittable := true
    isKeyParamRequired := false
    recalculateWindowArgs := true
    placeholdersForProcess := [(0, Param.elementP), (1, Param.windowP)]
    argsForProcess := [Arg.special Param.elementP, Arg.special Param.windowP]
    kwargsForProcess := []
    bundleFinalizerVal := Val.pynone
    getState := fun _ _ _ => Val.pynone
    getTimer := fun _ _ _ _ _ => Val.pynone
    bundleContextValue := fun _ => Val.pynone
    setupContextValue := fun _ => Val.pynone }

/-- A two-window element with value `5`. -/
def wvTwo : WindowedValue := ⟨Val.int 5, 0, [Window.id 0, Window.id 1], 0⟩

/-- A single-window element with value `5`. -/
def wvOne : WindowedValue := ⟨Val.int 5, 0, [Window.id 0], 0⟩

/-- The splitting state right after `invoke_process` published `wvTwo`
(restriction `0`, estimator state `0`) under the lock. -/
def stC1 : InvokerState :=
  { initialInvokerState with
    currentWindowedValue := some wvTwo
    restriction := some (Val.int 0)
    watermarkEstimatorState := some (Val.int 0) }

/-- The state `_should_process_window_for_sdf` leaves behind for window
index 0 of `wvTwo`. -/
def stAfterW0 : InvokerState :=
  match shouldProcessWindowForSdf sigSdf stC1 wvTwo [] (some 0) with
  | .ok (_, s, _) => s
  | .error _ => stC1

/-- The state `_should_process_window_for_sdf` leaves behind for window
index 1, continuing from `stAfterW0`. -/
def stAfterW1 : InvokerState :=
  match shouldProcessWindowForSdf sigSdf stAfterW0 wvTwo [] (some 1) with
  | .ok (_, s, _) => s
  | .error _ => stC1

/-- An invoker state carrying a leftover stop index `7`. -/
def stStop7 : InvokerState := { initialInvokerState with stopWindowIndex := some 7 }

/-- Mid-element splitting state: element `wvOne` in flight with
`trackerSplitOk`/`estimatorSplit` installed, not window observing. -/
def stC10 : InvokerState :=
  { initialInvokerState with
    currentWindowedValue := some wvOne
    restriction := some (Val.int 42)
    watermarkEstimatorState := some (Val.int 8)
    threadsafeRestrictionTracker := some trackerSplitOk
    threadsafeWatermarkEstimator := some estimatorSplit }

/-- The primary list `_try_split` produces in the `stC10` scenario. -/
def psC10 : List SplitResultPrimary :=
  [⟨{ value := Val.pair (Val.pair (Val.int 5) (Val.pair (Val.int 1) (Val.int 8)))
        (Val.int 1),
      timestamp := 0, windows := [Window.id 0], paneInfo := 0 }⟩]

/-- The residual list `_try_split` produces in the `stC10` scenario. -/
def rsC10 : List SplitResultResidual :=
  [⟨{ value := Val.pair (Val.pair (Val.int 5) (Val.pair (Val.int 2) (Val.int 9)))
        (Val.int 1),
      timestamp := 0, windows := [Window.id 0], paneInfo := 0 },
    some 7, none⟩]

/-- `sigSdf` without the restriction provider: a plain window-observing
DoFn. -/
def sigWin : DoFnSignatureM := { sigSdf with isSplittableDoFn := false }

/-- The invoker for `sigWin`. -/
def pwWin : PerWindowInvokerM := { pwSdf with sig := sigWin, isSplittable := false }

/-- A stateful DoFn signature: `process(self, element,
state=DoFn.StateParam(spec0))`. -/
def sigStateful : DoFnSignatureM :=
  { sigSdf with
    processArgNames := ["element", "state"]
    processDefaults := [Param.stateP 0]
    isStatefulDoFn := true
    isSplittableDoFn := false }

/-- The invoker for `sigStateful` (stateful, so windowed inputs and a user
state context are present). -/
def pwStateful : PerWindowInvokerM :=
  { pwSdf with
    sig := sigStateful
    userStateContext := true
    isSplittable := false
    isKeyParamRequired := false
    placeholdersForProcess := [(0, Param.elementP), (1, Param.stateP 0)]
    argsForProcess := [Arg.special Param.elementP, Arg.special (Param.stateP 0)] }

/-- A keyed element `(1, 2)` in one window. -/
def wvPair : WindowedValue := ⟨Val.pair (Val.int 1) (Val.int 2), 0, [Window.id 0], 0⟩

/-- A plain DoFn — `process(self, element)` with no special parameters —
whose function echoes its positional arguments. -/
def sigPlain : DoFnSignatureM :=
  { processArgNames := ["element"]
    processDefaults := []
    processBatchArgNames := []
    processBatchDefaults := []
    isStatefulDoFn := false
    isSplittableDoFn := false
    restrictionTrackerArgName := none
    watermarkArgName := none
    processFn := fun args _ => args
    initialRestriction := fun _ => Val.int 0
    createTracker := fun _ => trackerBasic
    createEstimator := fun _ => estimatorBasic
    provider := providerOne }

/-- The invoker `mkPerWindowInvoker` yields for `sigPlain` with no side
inputs, no input args and no kwargs. -/
def pwPlain : PerWindowInvokerM :=
  { sig := sigPlain
    sideInputs := []
    hasWindowedInputs := false
    userStateContext := false
    isSplittable := false
    isKeyParamRequired := false
    recalculateWindowArgs := false
    placeholdersForProcess := [(0, Param.elementP)]
    argsForProcess := [Arg.special Param.elementP]
    kwargsForProcess := []
    bundleFinalizerVal := Val.pynone
    getState := fun _ _ _ => Val.pynone
    getTimer := fun _ _ _ _ _ => Val.pynone
    bundleContextValue := fun _ => Val.pynone
    setupContextValue := fun _ => Val.pynone }

/-- An exception already tagged with a step annotation. -/
def exnTagged : PyExn := ⟨true, "boom [while running 'step0']", true⟩

/-- A fresh, reconstructible exception. -/
def exnFresh : PyExn := ⟨false, "boom", true⟩

/-! ## Theorems -/

/-- The literal invoker `pwSdf` is exactly what `__init__` computes for
`sigSdf`. -/
theorem pwSdf_is_init_result :
    mkPerWindowInvoker sigSdf [] [] [] false false Val.pynone
      (fun _ _ _ => Val.pynone) (fun _ _ _ _ _ => Val.pynone)
      (fun _ => Val.pynone) (fun _ => Val.pynone) = .ok pwSdf := rfl

/-- C9: a `try_split(fraction)` issued while no restriction tracker is
installed returns a no-op result — no exception, no primary, no residual,
state unchanged. -/
theorem c9_try_split_without_tracker_is_noop
    (pw : PerWindowInvokerM) (st : InvokerState) (fraction : Rat)
    (h : st.threadsafeRestrictionTracker = none) :
    PerWindowInvoker.trySplit pw st fraction = (.ok none, st) := by
  unfold PerWindowInvoker.trySplit
  rw [h]
  by_cases hs : pw.isSplittable <;> simp [hs]

/-- Witness for C9 at the freshly initialized state. -/
theorem c9_try_split_without_tracker_is_noop_witness :
    initialInvokerState.threadsafeRestrictionTracker = none ∧
    PerWindowInvoker.trySplit pwSdf initialInvokerState (1/2) =
      (.ok none, initialInvokerState) :=
  ⟨rfl, c9_try_split_without_tracker_is_noop pwSdf initialInvokerState (1/2) rfl⟩

/-- C10: whenever the internal helper `_try_split` succeeds, `try_split`
returns the helper's primary split results as the first component and its
residual split results as the second, and stores the helper's new stop
index — matching the declared return type despite the swapped local
variable names in the source. -/
theorem c10_try_split_returns_primaries_then_residuals
    (pw : PerWindowInvokerM) (st : InvokerState) (fraction : Rat)
    (tracker : TrackerModel) (wv : WindowedValue)
    (ps : List SplitResultPrimary) (rs : List SplitResultResidual)
    (ns : Option Nat)
    (hsp : pw.isSplittable = true)
    (htr : st.threadsafeRestrictionTracker = some tracker)
    (hwv : st.currentWindowedValue = some wv)
    (hhelp : trySplitHelper fraction st.currentWindowIndex st.stopWindowIndex wv
      (st.restriction.getD Val.pynone) (st.watermarkEstimatorState.getD Val.pynone)
      pw.sig.provider tracker st.threadsafeWatermarkEstimator =
        .ok (some (ps, rs, ns))) :
    PerWindowInvoker.trySplit pw st fraction =
      (.ok (some (ps, rs)), { st with stopWindowIndex := ns }) := by
  unfold PerWindowInvoker.trySplit
  rw [htr, hwv]
  simp [hsp, hhelp]

/-- Witness for C10: a mid-element split that succeeds. -/
theorem c10_try_split_returns_primaries_then_residuals_witness :
    trySplitHelper (1/2) stC10.currentWindowIndex stC10.stopWindowIndex wvOne
      (stC10.restriction.getD Val.pynone)
      (stC10.watermarkEstimatorState.getD Val.pynone)
      pwSdf.sig.provider trackerSplitOk stC10.threadsafeWatermarkEstimator =
      .ok (some (psC10, rsC10, none)) ∧
    PerWindowInvoker.trySplit pwSdf stC10 (1/2) =
      (.ok (some (psC10, rsC10)), { stC10 with stopWindowIndex := none }) :=
  ⟨rfl,
   c10_try_split_returns_primaries_then_residuals pwSdf stC10 (1/2)
     trackerSplitOk wvOne psC10 rsC10 none rfl rfl rfl rfl⟩

/-- C8 counterexample: `start_bundle_outputs` only checks `results is
None`; a non-`None` but *empty* result — an empty list — is rejected with
the fatal shape error, not accepted. -/
theorem c8_counterexample_empty_result_rejected :
    startBundleOutputs (some []) = .error .startBundleOutputsError ∧
    startBundleOutputs (some []) ≠ .ok () := by
  refine ⟨rfl, ?_⟩
  intro h
  simp [startBundleOutputs] at h

/-- C8 (amended): `start_bundle` must not produce any result object at
all — only a `None` result (no value returned) is accepted, routing
nothing; any other result, an empty sequence included, raises the fatal
shape error. -/
theorem c8_start_bundle_accepts_only_none :
    startBundleOutputs none = .ok () ∧
    ∀ r : List Val, startBundleOutputs (some r) = .error .startBundleOutputsError :=
  ⟨rfl, fun _ => rfl⟩

/-- C6: a user-function exception is annotated with the owning step's
identifier and re-raised; an already-tagged exception propagates
unchanged; annotation is idempotent; errors are never swallowed and
successful results pass through untouched. -/
theorem c6_exceptions_annotated_once_and_reraised
    (step : String) (e : PyExn) (rs : List SplitResultResidual) :
    (e.tagged = true → DoFnRunner.process (some step) (.error e) = .error e) ∧
    (e.tagged = false → step ≠ "" → e.reconstructible = true →
      DoFnRunner.process (some step) (.error e) =
        .error ⟨true, e.msg ++ stepAnnotation step, true⟩) ∧
    (e.tagged = false → step ≠ "" → e.reconstructible = false →
      DoFnRunner.process (some step) (.error e) =
        .error ⟨true, formatExceptionOnly e ++ stepAnnotation step, false⟩) ∧
    (DoFnRunner.process (some step) (.error e)).isOk = false ∧
    DoFnRunner.process (some step) (.ok rs) = .ok rs ∧
    reraiseAugmented (some step) (reraiseAugmented (some step) e) =
      reraiseAugmented (some step) e := by
  unfold DoFnRunner.process reraiseAugmented
  by_cases h1 : e.tagged <;> by_cases h2 : step = "" <;>
    by_cases h3 : e.reconstructible <;>
      simp [h1, h2, h3, Except.isOk, Except.toBool]

/-- Witness for C6: a tagged exception passes unchanged; a fresh one gets
the annotation. -/
theorem c6_exceptions_annotated_once_and_reraised_witness :
    DoFnRunner.process (some "step0") (.error exnTagged) = .error exnTagged ∧
    DoFnRunner.process (some "step0") (.error exnFresh) =
      .error ⟨true, "boom" ++ stepAnnotation "step0", true⟩ :=
  ⟨(c6_exceptions_annotated_once_and_reraised "step0" exnTagged []).1 rfl,
   (c6_exceptions_annotated_once_and_reraised "step0" exnFresh []).2.1 rfl
     (by decide) rfl⟩

/-- C1: evaluated at the failing input — a two-window splittable element —
`_should_process_window_for_sdf` records *nothing* for window index 0
(`if window_index:` is false for 0, so the current index stays `None` and
the stop index is never set to the window count); at window index 1 the
current index becomes 1 but the stop index is still `None`, and the
engine's own `assert stop_window_index` in `current_element_progress`
then fails. -/
theorem c1_window_zero_records_no_index_and_no_stop :
    (shouldProcessWindowForSdf sigSdf stC1 wvTwo [] (some 0)).map
      (fun r => (r.1, r.2.1.currentWindowIndex, r.2.1.stopWindowIndex)) =
      .ok (true, none, none) ∧
    (shouldProcessWindowForSdf sigSdf stAfterW0 wvTwo [] (some 1)).map
      (fun r => (r.1, r.2.1.currentWindowIndex, r.2.1.stopWindowIndex)) =
      .ok (true, some 1, none) ∧
    currentElementProgress pwSdf stAfterW1 = .error .assertionError :=
  ⟨rfl, rfl, rfl⟩

/-- C3 (amended): on every exit path of a splittable `invoke_process` —
success, early abort and failure alike — the windowed element, the
restriction, the watermark-estimator state, the *current* window index and
the installed tracker and estimator are cleared; the *stop* window index
is the one piece of splitting state the `finally` block does not reset. -/
theorem c3_splittable_state_cleared_on_all_paths
    (pw : PerWindowInvokerM) (st : InvokerState) (wv : WindowedValue)
    (restrictionArg watermarkEstimatorStateArg : Option Val)
    (additionalArgs : List Val) (additionalKwargs : Kwargs)
    (h : pw.isSplittable = true) :
    ((PerWindowInvoker.invokeProcess pw st wv restrictionArg
      watermarkEstimatorStateArg additionalArgs
      additionalKwargs).2.1.currentWindowedValue = none) ∧
    ((PerWindowInvoker.invokeProcess pw st wv restrictionArg
      watermarkEstimatorStateArg additionalArgs
      additionalKwargs).2.1.restriction = none) ∧
    ((PerWindowInvoker.invokeProcess pw st wv restrictionArg
      watermarkEstimatorStateArg additionalArgs
      additionalKwargs).2.1.watermarkEstimatorState = none) ∧
    ((PerWindowInvoker.invokeProcess pw st wv restrictionArg
      watermarkEstimatorStateArg additionalArgs
      additionalKwargs).2.1.currentWindowIndex = none) ∧
    ((PerWindowInvoker.invokeProcess pw st wv restrictionArg
      watermarkEstimatorStateArg additionalArgs
      additionalKwargs).2.1.threadsafeRestrictionTracker = none) ∧
    ((PerWindowInvoker.invokeProcess pw st wv restrictionArg
      watermarkEstimatorStateArg additionalArgs
      additionalKwargs).2.1.threadsafeWatermarkEstimator = none) := by
  unfold PerWindowInvoker.invokeProcess
  simp [h, clearSplitState]

/-- Witness for C3 at a concrete splittable run. -/
theorem c3_splittable_state_cleared_on_all_paths_witness :
    pwSdf.isSplittable = true ∧
    (PerWindowInvoker.invokeProcess pwSdf stC1 wvTwo (some (Val.int 0))
      (some (Val.int 0)) [] []).2.1.currentWindowedValue = none :=
  ⟨rfl,
   (c3_splittable_state_cleared_on_all_paths pwSdf stC1 wvTwo
     (some (Val.int 0)) (some (Val.int 0)) [] [] rfl).1⟩

/-- C3 counterexample: a successful splittable run leaves the stop window
index exactly as it was — `some 7` here — so the claim that the
current/stop index *pair* is cleared fails. -/
theorem c3_counterexample_stop_window_index_survives :
    (PerWindowInvoker.invokeProcess pwSdf stStop7 wvOne (some (Val.int 0))
      (some (Val.int 0)) [] []).1 = .ok [] ∧
    (PerWindowInvoker.invokeProcess pwSdf stStop7 wvOne (some (Val.int 0))
      (some (Val.int 0)) [] []).2.1.stopWindowIndex = some 7 ∧
    (PerWindowInvoker.invokeProcess pwSdf stStop7 wvOne (some (Val.int 0))
      (some (Val.int 0)) [] []).2.1.stopWindowIndex ≠ none := by
  refine ⟨rfl, rfl, ?_⟩
  intro h
  rw [show (PerWindowInvoker.invokeProcess pwSdf stStop7 wvOne (some (Val.int 0))
    (some (Val.int 0)) [] []).2.1.stopWindowIndex = some 7 from rfl] at h
  cases h

/-- C2: every `restriction_size` result is validated non-negative before
being used — a negative size for a deferred restriction aborts
`_invoke_process_per_window` before any residual is packaged; a negative
size for the original restriction aborts the whole-window split; and after
a successful tracker split the primary's and the residual's sizes are each
queried and validated independently before the split results are
packaged. -/
theorem c2_restriction_sizes_validated_nonnegative
    (provider : RestrictionProviderM) (tracker : TrackerModel)
    (est : EstimatorModel) (wv : WindowedValue) (restriction wes : Val)
    (fraction : Rat) (deferredR : Val) (deferredT : Int) (p q : Val)
    (windowContext : Option (Nat × Nat)) (stopOrig newStop : Option Nat)
    (stop toIndex fromIndex : Int) :
    (tracker.checkDoneOk = true →
     tracker.deferredStatus = some (deferredR, deferredT) →
     provider.restrictionSize (.value wv.value) deferredR < 0 →
     processSdfTail provider tracker (some est) wv =
       .error (.sizeError (provider.restrictionSize (.value wv.value) deferredR))) ∧
    (provider.restrictionSize (.windowedValue wv) restriction < 0 →
     computeWholeWindowSplit provider wv restriction wes stop toIndex fromIndex =
       .error (.sizeError (provider.restrictionSize (.windowedValue wv) restriction))) ∧
    (tracker.trySplitAt fraction = some (p, q) →
     provider.restrictionSize (.value wv.value) p < 0 →
     tryTrackerSplit fraction wv restriction wes provider tracker (some est)
       windowContext stopOrig newStop =
       .error (.sizeError (provider.restrictionSize (.value wv.value) p))) ∧
    (tracker.trySplitAt fraction = some (p, q) →
     0 ≤ provider.restrictionSize (.value wv.value) p →
     provider.restrictionSize (.value wv.value) q < 0 →
     tryTrackerSplit fraction wv restriction wes provider tracker (some est)
       windowContext stopOrig newStop =
       .error (.sizeError (provider.restrictionSize (.value wv.value) q))) := by
  refine ⟨?_, ?_, ?_, ?_⟩
  · intro hdone hdef hneg
    unfold processSdfTail
    rw [hdef]
    simp [hdone, hneg]
  · intro hneg
    unfold computeWholeWindowSplit
    simp [hneg]
  · intro hsplit hneg
    unfold tryTrackerSplit
    rw [hsplit]
    simp [hneg]
  · intro hsplit hpos hneg
    unfold tryTrackerSplit
    rw [hsplit]
    simp [not_lt.mpr hpos, hneg]

/-- Witness for C2: each validation site triggered at a concrete input. -/
theorem c2_restriction_sizes_validated_nonnegative_witness :
    processSdfTail providerNeg trackerDeferred (some estimatorBasic) wvOne =
      .error (.sizeError (-3)) ∧
    computeWholeWindowSplit providerNeg wvTwo (Val.int 0) (Val.int 0) 2 1 1 =
      .error (.sizeError (-3)) ∧
    tryTrackerSplit (1/2) wvOne (Val.int 42) (Val.int 8) providerPrimNeg
      trackerSplitOk (some estimatorSplit) none none none =
      .error (.sizeError (-5)) ∧
    tryTrackerSplit (1/2) wvOne (Val.int 42) (Val.int 8) providerResidNeg
      trackerSplitOk (some estimatorSplit) none none none =
      .error (.sizeError (-7)) :=
  ⟨(c2_restriction_sizes_validated_nonnegative providerNeg trackerDeferred
      estimatorBasic wvOne (Val.int 0) (Val.int 0) (1/2) (Val.int 11) 4
      (Val.int 1) (Val.int 2) none none none 2 1 1).1 rfl rfl (by decide),
   (c2_restriction_sizes_validated_nonnegative providerNeg trackerDeferred
      estimatorBasic wvTwo (Val.int 0) (Val.int 0) (1/2) (Val.int 11) 4
      (Val.int 1) (Val.int 2) none none none 2 1 1).2.1 (by decide),
   (c2_restriction_sizes_validated_nonnegative providerPrimNeg trackerSplitOk
      estimatorSplit wvOne (Val.int 42) (Val.int 8) (1/2) (Val.int 11) 4
      (Val.int 1) (Val.int 2) none none none 2 1 1).2.2.1 rfl (by decide),
   (c2_restriction_sizes_validated_nonnegative providerResidNeg trackerSplitOk
      estimatorSplit wvOne (Val.int 42) (Val.int 8) (1/2) (Val.int 11) 4
      (Val.int 1) (Val.int 2) none none none 2 1 1).2.2.2 rfl (by decide)
      (by decide)⟩

/-- A single placeholder assignment only ever fetches state or timers for
the extracted key and the resolved window. -/
theorem fillOne_lookup_uses_key_and_window
    (pw : PerWindowInvokerM) (wv : WindowedValue) (k : Val) (w : Window)
    (args : List Arg) (i : Nat) (p : Param) (args' : List Arg)
    (ev : LookupEvent)
    (h : fillOne pw wv (some w) (some k) args i p = .ok (args', some ev)) :
    ev.key = k ∧ ev.window = w := by
  cases p with
  | stateP spec =>
    simp only [fillOne] at h
    split at h
    · simp at h
    · simp at h
      obtain ⟨-, h2⟩ := h
      subst h2
      exact ⟨rfl, rfl⟩
  | timerP spec =>
    simp only [fillOne] at h
    split at h
    · simp at h
    · simp at h
      obtain ⟨-, h2⟩ := h
      subst h2
      exact ⟨rfl, rfl⟩
  | _ => simp [fillOne] at h

/-- Every lookup performed by the placeholder-filling loop uses the
extracted key and the resolved window. -/
theorem fillPlaceholders_lookups_use_key_and_window
    (pw : PerWindowInvokerM) (wv : WindowedValue) (k : Val) (w : Window) :
    ∀ (phs : List (Nat × Param)) (args : List Arg) (ev : LookupEvent),
      ev ∈ (fillPlaceholders pw wv (some w) (some k) phs args).2 →
      ev.key = k ∧ ev.window = w := by
  intro phs
  induction phs with
  | nil =>
    intro args ev h
    simp [fillPlaceholders] at h
  | cons hd tl ih =>
    intro args ev h
    obtain ⟨i, p⟩ := hd
    unfold fillPlaceholders at h
    cases hf : fillOne pw wv (some w) (some k) args i p with
    | error e => rw [hf] at h; simp at h
    | ok res =>
      obtain ⟨args', ev?⟩ := res
      rw [hf] at h
      cases ev? with
      | none =>
        simp at h
        exact ih args' ev h
      | some ev0 =>
        simp at h
        rcases h with h | h
        · have := fillOne_lookup_uses_key_and_window pw wv k w args i p args' ev0 hf
          rw [h]
          exact this
        · exact ih args' ev h

/-- Whatever `_invoke_process_per_window` does after the key extraction
succeeded, the state/timer fetches it performs are exactly those of the
placeholder-filling loop. -/
theorem invokeProcessPerWindow_lookups_eq
    (pw : PerWindowInvokerM) (st : InvokerState) (wv : WindowedValue)
    (additionalArgs : List Val) (additionalKwargs : Kwargs)
    (args0 : List Arg) (kwargs0 : Kwargs) (window? : Option Window)
    (key? : Option Val) (st1 : InvokerState)
    (hb : buildProcessArgs pw st wv additionalArgs =
      .ok ((args0, kwargs0), window?, st1))
    (hk : (if pw.userStateContext ∨ pw.isKeyParamRequired then
        match wv.value with
        | .pair k _ => .ok (some k)
        | v => .error (.keyShapeError v)
      else (.ok none : Except PyError (Option Val))) = .ok key?) :
    (invokeProcessPerWindow pw st wv additionalArgs
      additionalKwargs).2.2.lookups =
    (fillPlaceholders pw wv window? key? pw.placeholdersForProcess args0).2 := by
  unfold invokeProcessPerWindow
  rw [hb]
  dsimp only
  rw [hk]
  dsimp only
  rcases hf : fillPlaceholders pw wv window? key? pw.placeholdersForProcess args0
    with ⟨res, lookups⟩
  cases res with
  | error e => simp
  | ok argsF => simp

/-- C7: whenever the DoFn is stateful or declares `KeyParam`, the element
value is destructured as a two-part key/value pair — a non-pair value
raises the key-shape validation error and no state or timer lookup is
performed — and for a pair `(k, v)` every state/timer fetch of the call
uses key `k` and the element's window. -/
theorem c7_key_extracted_or_key_shape_error
    (pw : PerWindowInvokerM) (st : InvokerState) (wv : WindowedValue)
    (additionalArgs : List Val) (additionalKwargs : Kwargs)
    (hneed : pw.userStateContext = true ∨ pw.isKeyParamRequired = true) :
    ((∀ a b : Val, wv.value ≠ Val.pair a b) →
      ∀ x, buildProcessArgs pw st wv additionalArgs = .ok x →
      (invokeProcessPerWindow pw st wv additionalArgs additionalKwargs).1 =
        .error (.keyShapeError wv.value) ∧
      (invokeProcessPerWindow pw st wv additionalArgs
        additionalKwargs).2.2.lookups = []) ∧
    (∀ (k b : Val) (w : Window), wv.value = Val.pair k b →
      wv.windows = [w] → pw.hasWindowedInputs = true →
      st.hasCachedWindowArgs = false →
      ∀ ev ∈ (invokeProcessPerWindow pw st wv additionalArgs
        additionalKwargs).2.2.lookups, ev.key = k ∧ ev.window = w) := by
  constructor
  · intro hnp x hb
    obtain ⟨⟨args0, kwargs0⟩, window?, st1⟩ := x
    have hkey : (if pw.userStateContext ∨ pw.isKeyParamRequired then
        match wv.value with
        | .pair k _ => .ok (some k)
        | v => .error (.keyShapeError v)
      else (.ok none : Except PyError (Option Val))) =
        .error (.keyShapeError wv.value) := by
      rw [if_pos hneed]
      cases hv : wv.value with
      | pair a b => exact absurd hv (hnp a b)
      | _ => rfl
    unfold invokeProcessPerWindow
    rw [hb]
    dsimp only
    rw [hkey]
    simp [RunTrace.empty]
  · intro k b w hkv hws hwin hcache ev hev
    have hkey : (if pw.userStateContext ∨ pw.isKeyParamRequired then
        match wv.value with
        | .pair k' _ => .ok (some k')
        | v => .error (.keyShapeError v)
      else (.ok none : Except PyError (Option Val))) = .ok (some k) := by
      rw [if_pos hneed, hkv]
    have hb : ∃ args0 kwargs0 st1,
        buildProcessArgs pw st wv additionalArgs =
          .ok ((args0, kwargs0), some w, st1) := by
      unfold buildProcessArgs
      simp [hcache, hwin, hws]
      exact ⟨_, _, rfl⟩
    obtain ⟨args0, kwargs0, st1, hb⟩ := hb
    rw [invokeProcessPerWindow_lookups_eq pw st wv additionalArgs
      additionalKwargs args0 kwargs0 (some w) (some k) st1 hb hkey] at hev
    exact fillPlaceholders_lookups_use_key_and_window pw wv k w
      pw.placeholdersForProcess args0 ev hev


/-- Witness for C7: a stateful DoFn over a non-pair element raises the
key-shape error with no lookups; over the pair `(1, 2)` every lookup uses
key `1` and the element's window. -/
theorem c7_key_extracted_or_key_shape_error_witness :
    ((invokeProcessPerWindow pwStateful initialInvokerState wvOne [] []).1 =
      .error (.keyShapeError (Val.int 5)) ∧
     (invokeProcessPerWindow pwStateful initialInvokerState wvOne
       [] []).2.2.lookups = []) ∧
    (∀ ev ∈ (invokeProcessPerWindow pwStateful initialInvokerState wvPair
      [] []).2.2.lookups, ev.key = Val.int 1 ∧ ev.window = Window.id 0) :=
  ⟨(c7_key_extracted_or_key_shape_error pwStateful initialInvokerState wvOne
      [] [] (Or.inl rfl)).1 (fun _ _ h => Val.noConfusion h) _ rfl,
   (c7_key_extracted_or_key_shape_error pwStateful initialInvokerState wvPair
      [] [] (Or.inl rfl)).2 (Val.int 1) (Val.int 2) (Window.id 0)
      rfl rfl rfl rfl⟩

/-- `_invoke_process_per_window` is entered exactly once per call, with
the windowed value it was handed. -/
theorem perWindow_trace_perWindowCalls
    (pw : PerWindowInvokerM) (st : InvokerState) (wv : WindowedValue)
    (additionalArgs : List Val) (additionalKwargs : Kwargs) :
    (invokeProcessPerWindow pw st wv additionalArgs
      additionalKwargs).2.2.perWindowCalls = [wv] := by
  unfold invokeProcessPerWindow
  cases hb : buildProcessArgs pw st wv additionalArgs with
  | error e => simp [RunTrace.empty]
  | ok x =>
    obtain ⟨⟨args0, kwargs0⟩, window?, st1⟩ := x
    dsimp only
    cases hkr : (if pw.userStateContext ∨ pw.isKeyParamRequired then
        match wv.value with
        | .pair k _ => Except.ok (some k)
        | v => Except.error (PyError.keyShapeError v)
      else (.ok none : Except PyError (Option Val))) with
    | error e => simp [RunTrace.empty]
    | ok key? =>
      dsimp only
      rcases hf : fillPlaceholders pw wv window? key? pw.placeholdersForProcess
        args0 with ⟨res, lookups⟩
      cases res with
      | error e => simp [RunTrace.empty]
      | ok argsF => simp

/-- A successful `_invoke_process_per_window` calls the user function
exactly once. -/
theorem perWindow_ok_userCalls
    (pw : PerWindowInvokerM) (st : InvokerState) (wv : WindowedValue)
    (additionalArgs : List Val) (additionalKwargs : Kwargs)
    (h : (invokeProcessPerWindow pw st wv additionalArgs
      additionalKwargs).1.isOk = true) :
    (invokeProcessPerWindow pw st wv additionalArgs
      additionalKwargs).2.2.userCalls.length = 1 := by
  unfold invokeProcessPerWindow at h ⊢
  cases hb : buildProcessArgs pw st wv additionalArgs with
  | error e =>
    rw [hb] at h
    simp [Except.isOk, Except.toBool] at h
  | ok x =>
    obtain ⟨⟨args0, kwargs0⟩, window?, st1⟩ := x
    rw [hb] at h
    try dsimp only at h ⊢
    cases hkr : (if pw.userStateContext ∨ pw.isKeyParamRequired then
        match wv.value with
        | .pair k _ => Except.ok (some k)
        | v => Except.error (PyError.keyShapeError v)
      else (.ok none : Except PyError (Option Val))) with
    | error e =>
      rw [hkr] at h
      try dsimp only at h
      simp [Except.isOk, Except.toBool] at h
    | ok key? =>
      rw [hkr] at h
      try dsimp only at h ⊢
      rcases hf : fillPlaceholders pw wv window? key? pw.placeholdersForProcess
        args0 with ⟨res, lookups⟩
      rw [hf] at h
      try rw [hf]
      cases res with
      | error e =>
        try dsimp only at h
        simp [Except.isOk, Except.toBool] at h
      | ok argsF => simp

/-- The window-explosion loop, when it succeeds, performs exactly one
per-window invocation per window, in window-list order, each with the
synthetic single-window copy, and one user-function call per window. -/
theorem explodeLoop_ok_trace
    (pw : PerWindowInvokerM) (wv : WindowedValue)
    (additionalArgs : List Val) (additionalKwargs : Kwargs) :
    ∀ (ws : List Window) (st : InvokerState),
      (explodeLoop pw wv additionalArgs additionalKwargs ws st).1 = .ok () →
      (explodeLoop pw wv additionalArgs additionalKwargs
        ws st).2.2.perWindowCalls = ws.map (syntheticCopy wv) ∧
      (explodeLoop pw wv additionalArgs additionalKwargs
        ws st).2.2.userCalls.length = ws.length := by
  intro ws
  induction ws with
  | nil =>
    intro st _
    simp [explodeLoop, RunTrace.empty]
  | cons w rest ih =>
    intro st h
    unfold explodeLoop at h ⊢
    rcases hc : invokeProcessPerWindow pw st (syntheticCopy wv w)
      additionalArgs additionalKwargs with ⟨res, st1, tr⟩
    rw [hc] at h
    cases res with
    | error e => simp at h
    | ok r? =>
      rcases hl : explodeLoop pw wv additionalArgs additionalKwargs rest st1
        with ⟨res2, st2, tr2⟩
      dsimp only at h
      rw [hl] at h
      dsimp only at h ⊢
      have hper : tr.perWindowCalls = [syntheticCopy wv w] := by
        have hx := perWindow_trace_perWindowCalls pw st (syntheticCopy wv w)
          additionalArgs additionalKwargs
        rw [hc] at hx
        exact hx
      have huser : tr.userCalls.length = 1 := by
        have hx := perWindow_ok_userCalls pw st (syntheticCopy wv w)
          additionalArgs additionalKwargs (by rw [hc]; rfl)
        rw [hc] at hx
        exact hx
      have ihh := ih st1 (by rw [hl]; exact h)
      rw [hl] at ihh
      have ih1 : tr2.perWindowCalls = List.map (syntheticCopy wv) rest := ihh.1
      have ih2 : tr2.userCalls.length = rest.length := ihh.2
      refine ⟨?_, ?_⟩
      · simp [RunTrace.append, hper, hl, ih1]
      · simp [RunTrace.append, huser, hl, ih2]
        omega

/-- C4: a multi-window element processed by a window-sensitive,
non-splittable function that completes successfully triggers exactly one
user-function call per window, in window-list order, each receiving the
synthetic copy whose window set is exactly that single window. -/
theorem c4_window_explosion_one_call_per_window
    (pw : PerWindowInvokerM) (st : InvokerState) (wv : WindowedValue)
    (restrictionArg watermarkEstimatorStateArg : Option Val)
    (additionalArgs : List Val) (additionalKwargs : Kwargs)
    (hns : pw.isSplittable = false)
    (hwin : pw.hasWindowedInputs = true)
    (hlen : 1 < wv.windows.length)
    (hok : (PerWindowInvoker.invokeProcess pw st wv restrictionArg
      watermarkEstimatorStateArg additionalArgs additionalKwargs).1 = .ok []) :
    (PerWindowInvoker.invokeProcess pw st wv restrictionArg
      watermarkEstimatorStateArg additionalArgs
      additionalKwargs).2.2.perWindowCalls =
        wv.windows.map (syntheticCopy wv) ∧
    (PerWindowInvoker.invokeProcess pw st wv restrictionArg
      watermarkEstimatorStateArg additionalArgs
      additionalKwargs).2.2.userCalls.length = wv.windows.length := by
  have hne : wv.windows.length ≠ 1 := by omega
  unfold PerWindowInvoker.invokeProcess at hok ⊢
  simp only [hns, hwin, hne, Bool.false_eq_true, if_false, ne_eq,
    not_false_eq_true, and_self, if_true] at hok ⊢
  rcases hE : (explodeLoop pw wv additionalArgs additionalKwargs wv.windows st).1
    with e | u
  · rw [hE] at hok
    simp [Except.map] at hok
  · have hu : (explodeLoop pw wv additionalArgs additionalKwargs
        wv.windows st).1 = .ok () := by rw [hE]
    exact explodeLoop_ok_trace pw wv additionalArgs additionalKwargs
      wv.windows st hu

/-- Witness for C4: the two-window element is exploded into two ordered
singleton-window calls. -/
theorem c4_window_explosion_one_call_per_window_witness :
    (PerWindowInvoker.invokeProcess pwWin initialInvokerState wvTwo none none
      [] []).2.2.perWindowCalls = wvTwo.windows.map (syntheticCopy wvTwo) ∧
    (PerWindowInvoker.invokeProcess pwWin initialInvokerState wvTwo none none
      [] []).2.2.userCalls.length = wvTwo.windows.length :=
  c4_window_explosion_one_call_per_window pwWin initialInvokerState wvTwo
    none none [] [] rfl rfl (by decide) rfl


/-- With no defaults, no input args and no kwargs the argument template is
a single element placeholder in slot 0. -/
theorem getArgPlaceholders_no_defaults (argNames : List String) :
    getArgPlaceholders argNames [] [] [] =
      .ok ([(0, Param.elementP)], [Arg.special Param.elementP], []) := by
  unfold getArgPlaceholders walkDefaults
  simp [pySliceTo, pySliceFrom, pySlice, pyIdx]

/-- C5: for an element function with no special parameters, no side
inputs, no constant extra arguments, that is neither stateful nor
splittable, `create_invoker` picks the direct policy, and the
windowed-policy invoker produces exactly the direct policy's result and
outputs (same user-function call, same output-handler call) on every
windowed input. -/
theorem c5_direct_and_windowed_policies_agree
    (sig : DoFnSignatureM) (experiments : Bool) (pw : PerWindowInvokerM)
    (bfv : Val) (gs : Nat → Val → Window → Val)
    (gt : Nat → Val → Window → Int → Nat → Val)
    (bc sc : Nat → Val) (wv : WindowedValue)
    (hdef : sig.processDefaults = [])
    (hbdef : sig.processBatchDefaults = [])
    (hstate : sig.isStatefulDoFn = false)
    (hsplit : sig.isSplittableDoFn = false)
    (hmk : mkPerWindowInvoker sig [] [] [] false experiments bfv gs gt bc sc =
      .ok pw) :
    createInvokerUsesSimple sig [] [] [] true = true ∧
    (PerWindowInvoker.invokeProcess pw initialInvokerState wv none none
      [] []).1 = (SimpleInvoker.invokeProcess sig wv).1 ∧
    (PerWindowInvoker.invokeProcess pw initialInvokerState wv none none
      [] []).2.2.handlerCalls =
      (SimpleInvoker.invokeProcess sig wv).2.handlerCalls ∧
    (PerWindowInvoker.invokeProcess pw initialInvokerState wv none none
      [] []).2.2.userCalls = (SimpleInvoker.invokeProcess sig wv).2.userCalls := by
  refine ⟨by simp [createInvokerUsesSimple, hdef, hbdef, hstate], ?_⟩
  unfold mkPerWindowInvoker at hmk
  rw [hdef, hbdef, hstate,
    getArgPlaceholders_no_defaults sig.processArgNames,
    getArgPlaceholders_no_defaults sig.processBatchArgNames] at hmk
  simp at hmk
  subst hmk
  by_cases hexp : experiments = true <;>
    simp [PerWindowInvoker.invokeProcess, invokeProcessPerWindow,
      buildProcessArgs, insertValuesInArgs, insertValuesInArgs.go,
      fillPlaceholders, fillOne, kwargsUpdate, argToVal, Except.map,
      SimpleInvoker.invokeProcess, RunTrace.empty, initialInvokerState,
      hsplit, hexp]


/-- Witness for C5: the plain echo DoFn behaves identically under both
policies on a two-window element. -/
theorem c5_direct_and_windowed_policies_agree_witness :
    mkPerWindowInvoker sigPlain [] [] [] false false Val.pynone
      (fun _ _ _ => Val.pynone) (fun _ _ _ _ _ => Val.pynone)
      (fun _ => Val.pynone) (fun _ => Val.pynone) = .ok pwPlain ∧
    (createInvokerUsesSimple sigPlain [] [] [] true = true ∧
     (PerWindowInvoker.invokeProcess pwPlain initialInvokerState wvTwo none
       none [] []).1 = (SimpleInvoker.invokeProcess sigPlain wvTwo).1 ∧
     (PerWindowInvoker.invokeProcess pwPlain initialInvokerState wvTwo none
       none [] []).2.2.handlerCalls =
       (SimpleInvoker.invokeProcess sigPlain wvTwo).2.handlerCalls ∧
     (PerWindowInvoker.invokeProcess pwPlain initialInvokerState wvTwo none
       none [] []).2.2.userCalls =
       (SimpleInvoker.invokeProcess sigPlain wvTwo).2.userCalls) :=
  ⟨rfl,
   c5_direct_and_windowed_policies_agree sigPlain false pwPlain Val.pynone
     (fun _ _ _ => Val.pynone) (fun _ _ _ _ _ => Val.pynone)
     (fun _ => Val.pynone) (fun _ => Val.pynone) wvTwo rfl rfl rfl rfl rfl⟩

end BeamCommon
